import Mathlib

/-
A shallow embedding of src/exporter.py (a Square payments/refunds
Prometheus exporter).  Pure record processing becomes Lean functions;
the three `while True` pagination loops become fuel-indexed recursions
(`none` result = the fuel ran out); remote HTTP calls become oracle
functions returning `Except PyError`; the mutable order cache and the
Prometheus gauge registry become explicitly threaded state.
-/

namespace Exporter

/-- Errors raised by remote calls in the exporter: `transport` models any
`requests` failure or non-2xx response surfaced by `raise_for_status`;
`keyError k` models a Python `KeyError` on the dictionary key `k`. -/
inductive PyError where
  | transport
  | keyError (key : String)
deriving DecidableEq, Repr

/-- The `amount_money` sub-dictionary of a payment or refund record; the
`amount` key may itself be absent. -/
structure AmountMoney where
  amount : Option Int
deriving DecidableEq, Repr

/-- A record of the `payments` array.  `amount_money` may be absent (the
source indexes it with `p["amount_money"]`, which raises `KeyError`);
`order_id` is read with `.get`, so absence yields `None`. -/
structure PaymentRecord where
  amount_money : Option AmountMoney
  order_id : Option String
deriving DecidableEq, Repr

/-- A record of the `refunds` array; every field of it that the source
touches is read with `.get` and defaulted. -/
structure RefundRecord where
  amount_money : Option AmountMoney
deriving DecidableEq, Repr

/-- A line item of an order.  The Square API carries `quantity` as a
decimal string which the source parses with `int(...)`; we model the
parsed integer (absence defaults to `int("1") = 1`). -/
structure LineItem where
  name : Option String
  quantity : Option Int
  base_price_money : Option AmountMoney
deriving DecidableEq, Repr

/-- `resp.json().get("order", {})` restricted to the one key the source
reads: `line_items` (absence defaults to the empty list). -/
structure Order where
  line_items : List LineItem
deriving DecidableEq, Repr

/-- One page of a paginated response: `records` is the `payments` or
`refunds` array (read with `.get(..., [])`, so an absent key is the empty
list) and `cursor` is `data.get("cursor")`.  Cursors are opaque tokens,
modelled as naturals; `none` stands for an absent (or falsy) cursor. -/
structure ApiPage (α : Type) where
  records : List α
  cursor : Option Nat
deriving DecidableEq, Repr

/-- `m.get(key)` on a Python dict, modelled as an insertion-ordered
association list. -/
def dictGet? {α : Type} : List (String × α) → String → Option α
  | [], _ => none
  | (k, v) :: rest, key => if k = key then some v else dictGet? rest key

/-- `m[key] = v` on a Python dict: replace the value in place when the key
exists, otherwise append the new entry at the end. -/
def dictSet {α : Type} : List (String × α) → String → α → List (String × α)
  | [], key, v => [(key, v)]
  | (k, w) :: rest, key, v =>
    if k = key then (key, v) :: rest else (k, w) :: dictSet rest key v

/-- The order cache: the mutable default-argument dict of `get_order`,
living for the whole process. -/
abbrev Cache := List (String × Order)

/-- `order_id in cache` / `cache[order_id]`. -/
def cacheLookup (cache : Cache) (order_id : String) : Option Order :=
  dictGet? cache order_id

/-- `get_order` (src/exporter.py, lines 62-71).  The remote
`GET /orders/{id}` endpoint is an oracle `fetch` threading a state `s`
that advances exactly when a network request is issued.  A cache hit
returns the stored order with no request; a miss issues the request and
caches the result; a failed request raises and caches nothing. -/
def get_order {σ : Type} (fetch : σ → String → σ × Except PyError Order)
    (s : σ) (cache : Cache) (order_id : String) :
    σ × Cache × Except PyError Order :=
  match cacheLookup cache order_id with
  | some o => (s, cache, Except.ok o)
  | none =>
    match fetch s order_id with
    | (s1, Except.error e) => (s1, cache, Except.error e)
    | (s1, Except.ok o) => (s1, dictSet cache order_id o, Except.ok o)

/-- `item.get("name", "<unknown>")` (line 115). -/
def itemName (it : LineItem) : String := it.name.getD "<unknown>"

/-- `int(item.get("quantity", "1"))` (line 116). -/
def itemQty (it : LineItem) : Int := it.quantity.getD 1

/-- `item.get("base_price_money", {}).get("amount", 0)` (line 117). -/
def itemUnitPrice (it : LineItem) : Int :=
  match it.base_price_money with
  | none => 0
  | some m => m.amount.getD 0

/-- The per-window payment accumulators of `collect_metrics`
(lines 98-101): `total_count`, `total_value`, `product_counts`,
`product_values`. -/
structure PayAcc where
  total_count : Nat
  total_value : Int
  product_counts : List (String × Int)
  product_values : List (String × Int)
deriving DecidableEq, Repr

/-- The freshly-initialized accumulators (lines 98-101). -/
def payAcc0 : PayAcc := ⟨0, 0, [], []⟩

/-- The inner loop over `order.get("line_items", [])` (lines 114-119):
accumulate quantity into `product_counts[name]` and
`unit_price * qty` into `product_values[name]`. -/
def processItems : List LineItem → PayAcc → PayAcc
  | [], acc => acc
  | it :: rest, acc =>
    processItems rest
      { acc with
        product_counts :=
          dictSet acc.product_counts (itemName it)
            ((dictGet? acc.product_counts (itemName it)).getD 0 + itemQty it)
        product_values :=
          dictSet acc.product_values (itemName it)
            ((dictGet? acc.product_values (itemName it)).getD 0
              + itemUnitPrice it * itemQty it) }

/-- `p["amount_money"]["amount"]` (line 109): raises `KeyError` when
either key is absent. -/
def payAmount (p : PaymentRecord) : Except PyError Int :=
  match p.amount_money with
  | none => Except.error (PyError.keyError "amount_money")
  | some m =>
    match m.amount with
    | none => Except.error (PyError.keyError "amount")
    | some a => Except.ok a

/-- Python truthiness of the `order_id` test (line 112): both `None` and
the empty string are falsy. -/
def truthyStr : Option String → Option String
  | none => none
  | some s => if s = "" then none else some s

/-- The body of the payments loop over one page (lines 107-119): count
and total the payment, then resolve its order (if it carries a truthy
`order_id`) and fold the line items into the product maps.  An error at
any point aborts the loop, keeping only the cache and fetch-state side
effects performed so far. -/
def processPayments {σ : Type} (fetchOrder : σ → String → σ × Except PyError Order) :
    List PaymentRecord → PayAcc → σ → Cache → σ × Cache × Except PyError PayAcc
  | [], acc, s, cache => (s, cache, Except.ok acc)
  | p :: rest, acc, s, cache =>
    let acc1 := { acc with total_count := acc.total_count + 1 }
    match payAmount p with
    | Except.error e => (s, cache, Except.error e)
    | Except.ok amount =>
      let acc2 := { acc1 with total_value := acc1.total_value + amount }
      match truthyStr p.order_id with
      | none => processPayments fetchOrder rest acc2 s cache
      | some oid =>
        match get_order fetchOrder s cache oid with
        | (s1, cache1, Except.error e) => (s1, cache1, Except.error e)
        | (s1, cache1, Except.ok order) =>
          processPayments fetchOrder rest (processItems order.line_items acc2) s1 cache1

/-- The `while True` pagination loop over payments (lines 104-122), with
explicit fuel; a `none` third component means the fuel ran out before the
loop ended. -/
def paymentsSweep {σ : Type}
    (fetchPage : Option Nat → Except PyError (ApiPage PaymentRecord))
    (fetchOrder : σ → String → σ × Except PyError Order) :
    Nat → Option Nat → PayAcc → σ → Cache → σ × Cache × Option (Except PyError PayAcc)
  | 0, _, _, s, cache => (s, cache, none)
  | fuel + 1, cursor, acc, s, cache =>
    match fetchPage cursor with
    | Except.error e => (s, cache, some (Except.error e))
    | Except.ok page =>
      match processPayments fetchOrder page.records acc s cache with
      | (s1, cache1, Except.error e) => (s1, cache1, some (Except.error e))
      | (s1, cache1, Except.ok acc1) =>
        match page.cursor with
        | none => (s1, cache1, some (Except.ok acc1))
        | some c => paymentsSweep fetchPage fetchOrder fuel (some c) acc1 s1 cache1

/-- `r.get("amount_money", {}).get("amount", 0)` (line 130). -/
def refundAmount (r : RefundRecord) : Int :=
  match r.amount_money with
  | none => 0
  | some m => m.amount.getD 0

/-- The body of the refunds loop over one page (lines 128-130). -/
def processRefunds : List RefundRecord → Nat → Int → Nat × Int
  | [], c, v => (c, v)
  | r :: rest, c, v => processRefunds rest (c + 1) (v + refundAmount r)

/-- The refunds pagination loop (lines 125-133). -/
def refundsSweep (fetchPage : Option Nat → Except PyError (ApiPage RefundRecord)) :
    Nat → Option Nat → Nat → Int → Option (Except PyError (Nat × Int))
  | 0, _, _, _ => none
  | fuel + 1, cursor, c, v =>
    match fetchPage cursor with
    | Except.error e => some (Except.error e)
    | Except.ok page =>
      match processRefunds page.records c v with
      | (c1, v1) =>
        match page.cursor with
        | none => some (Except.ok (c1, v1))
        | some cur => refundsSweep fetchPage fuel (some cur) c1 v1

/-- The body of the MTD payments loop (lines 160-162):
`p["amount_money"]["amount"]` may raise `KeyError`. -/
def processMtdPayments : List PaymentRecord → Nat → Int → Except PyError (Nat × Int)
  | [], c, v => Except.ok (c, v)
  | p :: rest, c, v =>
    match payAmount p with
    | Except.error e => Except.error e
    | Except.ok a => processMtdPayments rest (c + 1) (v + a)

/-- The MTD pagination loop (lines 157-165). -/
def mtdSweep (fetchPage : Option Nat → Except PyError (ApiPage PaymentRecord)) :
    Nat → Option Nat → Nat → Int → Option (Except PyError (Nat × Int))
  | 0, _, _, _ => none
  | fuel + 1, cursor, c, v =>
    match fetchPage cursor with
    | Except.error e => some (Except.error e)
    | Except.ok page =>
      match processMtdPayments page.records c v with
      | Except.error e => some (Except.error e)
      | Except.ok (c1, v1) =>
        match page.cursor with
        | none => some (Except.ok (c1, v1))
        | some cur => mtdSweep fetchPage fuel (some cur) c1 v1

/-- The Prometheus gauge registry (lines 48-59): a persistent set of
values; the labelled per-product gauges are maps from the `product_name`
label to a value.  Prometheus gauges start at 0 and keep their last `set`
value until it is overwritten. -/
structure Gauges where
  g_pay_count : ℚ
  g_pay_value : ℚ
  g_avg_value : ℚ
  g_refund_count : ℚ
  g_refund_value : ℚ
  product_count_24h : List (String × ℚ)
  product_value_24h : List (String × ℚ)
  g_pay_count_mtd : ℚ
  g_pay_value_mtd : ℚ
  g_avg_value_mtd : ℚ
deriving DecidableEq, Repr

/-- The registry as created at import time: every gauge at 0, no labelled
children. -/
def gauges0 : Gauges := ⟨0, 0, 0, 0, 0, [], [], 0, 0, 0⟩

/-- The product-gauge publication loop (lines 141-143): iterate over
`product_counts.items()`, setting the count gauge to `cnt` and the value
gauge to `product_values[prod]` (present by construction, since both maps
always receive the same keys). -/
def publishProducts :
    List (String × ℚ) → List (String × ℚ) → List (String × Int) → List (String × Int) →
      List (String × ℚ) × List (String × ℚ)
  | cg, vg, [], _ => (cg, vg)
  | cg, vg, (prod, cnt) :: rest, vals =>
    publishProducts (dictSet cg prod (cnt : ℚ))
      (dictSet vg prod (((dictGet? vals prod).getD 0 : Int) : ℚ)) rest vals

/-- Publication of the 24h metrics (lines 136-143).  The average is
`total_value / total_count if total_count else 0`. -/
def publish24 (g : Gauges) (acc : PayAcc) (rc : Nat) (rv : Int) : Gauges :=
  let pr := publishProducts g.product_count_24h g.product_value_24h
    acc.product_counts acc.product_values
  { g with
    g_pay_count := (acc.total_count : ℚ)
    g_pay_value := (acc.total_value : ℚ)
    g_avg_value :=
      if acc.total_count = 0 then 0
      else (acc.total_value : ℚ) / (acc.total_count : ℚ)
    g_refund_count := (rc : ℚ)
    g_refund_value := (rv : ℚ)
    product_count_24h := pr.1
    product_value_24h := pr.2 }

/-- Publication of the MTD metrics (lines 168-170). -/
def publishMtd (g : Gauges) (mc : Nat) (mv : Int) : Gauges :=
  { g with
    g_pay_count_mtd := (mc : ℚ)
    g_pay_value_mtd := (mv : ℚ)
    g_avg_value_mtd := if mc = 0 then 0 else (mv : ℚ) / (mc : ℚ) }

/-- The remote API as seen by one collection cycle: the three paginated
sweeps (payments over the 24h window, refunds over the 24h window,
payments over the MTD window) and the orders endpoint, whose oracle
threads a state `σ` that advances exactly when a request is issued. -/
structure Remote (σ : Type) where
  payments24 : Option Nat → Except PyError (ApiPage PaymentRecord)
  refunds24 : Option Nat → Except PyError (ApiPage RefundRecord)
  paymentsMtd : Option Nat → Except PyError (ApiPage PaymentRecord)
  orderFetch : σ → String → σ × Except PyError Order

/-- Outcome of one `collect_metrics()` call: the gauge values after the
call, the order cache and fetch state (which persist across cycles), and
`err = some e` when the call raised `e`. -/
structure CycleOut (σ : Type) where
  gauges : Gauges
  cache : Cache
  fetchSt : σ
  err : Option PyError
deriving DecidableEq, Repr

/-- `collect_metrics` (lines 87-175): 24h payments sweep, then 24h
refunds sweep, then 24h publication, then MTD sweep, then MTD
publication.  An exception anywhere aborts the rest of the function;
gauges already set keep their values.  A `none` result means one of the
pagination loops ran past the given fuel. -/
def collect_metrics {σ : Type} (R : Remote σ) (fuel : Nat) (g : Gauges) (s : σ)
    (cache : Cache) : Option (CycleOut σ) :=
  match paymentsSweep R.payments24 R.orderFetch fuel none payAcc0 s cache with
  | (_, _, none) => none
  | (s1, cache1, some (Except.error e)) => some ⟨g, cache1, s1, some e⟩
  | (s1, cache1, some (Except.ok acc)) =>
    match refundsSweep R.refunds24 fuel none 0 0 with
    | none => none
    | some (Except.error e) => some ⟨g, cache1, s1, some e⟩
    | some (Except.ok (rc, rv)) =>
      let g1 := publish24 g acc rc rv
      match mtdSweep R.paymentsMtd fuel none 0 0 with
      | none => none
      | some (Except.error e) => some ⟨g1, cache1, s1, some e⟩
      | some (Except.ok (mc, mv)) => some ⟨publishMtd g1 mc mv, cache1, s1, none⟩

/-- One iteration of the main loop (lines 185-190): any exception raised
by `collect_metrics` is caught and logged, and the loop proceeds with the
persistent state (gauges, fetch state, cache). -/
def runTick {σ : Type} (R : Remote σ) (fuel : Nat) (g : Gauges) (s : σ)
    (cache : Cache) : Option (Gauges × σ × Cache) :=
  match collect_metrics R fuel g s cache with
  | none => none
  | some out => some (out.gauges, out.fetchSt, out.cache)

/-- The fields of a Python `datetime` relevant to window computation. -/
structure DateTime where
  year : Nat
  month : Nat
  day : Nat
  hour : Nat
  minute : Nat
  second : Nat
  microsecond : Nat
deriving DecidableEq, Repr

/-- `now.replace(day=1, hour=0, minute=0, second=0, microsecond=0)`
(line 151). -/
def mtdStart (now : DateTime) : DateTime :=
  { now with day := 1, hour := 0, minute := 0, second := 0, microsecond := 0 }

/-- The MTD window passed to `list_payments`: `mb` renders `mtd_start`
and `me = et`, where `et` renders `now` (lines 90-93 and 151-153). -/
def mtdWindow (now : DateTime) : DateTime × DateTime := (mtdStart now, now)

/-- Minutes elapsed since midnight, for stating the month-boundary
scenario. -/
def minutesOfDay (d : DateTime) : Nat := d.hour * 60 + d.minute

/-- Resolving a sequence of order ids through `get_order`, threading
fetch state and cache, as the payments sweep does for payments that
reference orders. -/
def resolveAll {σ : Type} (fetch : σ → String → σ × Except PyError Order) :
    σ → Cache → List String → σ × Cache
  | s, cache, [] => (s, cache)
  | s, cache, oid :: rest =>
    match get_order fetch s cache oid with
    | (s1, cache1, _) => resolveAll fetch s1 cache1 rest

/-- Instrumentation of the orders endpoint: wrap a pure oracle so that
the threaded state counts the network requests actually issued. -/
def countFetch (f : String → Except PyError Order) :
    Nat → String → Nat × Except PyError Order :=
  fun n oid => (n + 1, f oid)

/-- The amount a well-formed payment record carries
(`p["amount_money"]["amount"]` when both keys are present). -/
def amountOf (p : PaymentRecord) : Int :=
  (p.amount_money.bind AmountMoney.amount).getD 0

/-- The payment record carries both `amount_money` and `amount` keys. -/
def HasAmount (p : PaymentRecord) : Prop :=
  (p.amount_money.bind AmountMoney.amount).isSome

/-- `fetch` serves exactly the page contents `pagesRecs` as a cursor
chain starting from cursor `cur`: every page but the last carries a
continuation cursor pointing at the next page, the last carries none. -/
def ServesChain {α : Type} (fetch : Option Nat → Except PyError (ApiPage α)) :
    Option Nat → List (List α) → Prop
  | _, [] => False
  | cur, recs :: rest =>
    match rest with
    | [] => fetch cur = Except.ok ⟨recs, none⟩
    | _ :: _ =>
      ∃ c, fetch cur = Except.ok ⟨recs, some c⟩ ∧ ServesChain fetch (some c) rest

/-- The orders oracle never fails (and is insensitive to nothing else:
its state may still advance). -/
def OracleOk {σ : Type} (fetch : σ → String → σ × Except PyError Order) : Prop :=
  ∀ (s : σ) (oid : String), ∃ s1 o, fetch s oid = (s1, Except.ok o)

instance hasAmountDecidable (p : PaymentRecord) : Decidable (HasAmount p) :=
  inferInstanceAs (Decidable ((p.amount_money.bind AmountMoney.amount).isSome = true))

theorem dictGet?_dictSet_self {α : Type} (m : List (String × α)) (k : String) (v : α) :
    dictGet? (dictSet m k v) k = some v := by
  induction m with
  | nil => simp [dictSet, dictGet?]
  | cons kv rest ih =>
    obtain ⟨k1, v1⟩ := kv
    by_cases h : k1 = k
    · simp [dictSet, h, dictGet?]
    · simp [dictSet, h, dictGet?, ih]

theorem dictGet?_dictSet_ne {α : Type} (m : List (String × α)) (k k1 : String) (v : α)
    (h : k ≠ k1) : dictGet? (dictSet m k v) k1 = dictGet? m k1 := by
  induction m with
  | nil => simp [dictSet, dictGet?, h]
  | cons kv rest ih =>
    obtain ⟨k2, v2⟩ := kv
    by_cases h2 : k2 = k
    · subst h2; simp [dictSet, dictGet?, h]
    · simp [dictSet, h2, dictGet?, ih]

theorem processItems_total (items : List LineItem) :
    ∀ acc : PayAcc, (processItems items acc).total_count = acc.total_count ∧
      (processItems items acc).total_value = acc.total_value := by
  induction items with
  | nil => intro acc; exact ⟨rfl, rfl⟩
  | cons it rest ih => intro acc; simpa [processItems] using ih _

theorem payAmount_hasAmount (p : PaymentRecord) (hp : HasAmount p) :
    payAmount p = Except.ok (amountOf p) := by
  rcases p with ⟨am, oidf⟩
  cases am with
  | none => simp [HasAmount] at hp
  | some m =>
    cases hma : m.amount with
    | none => simp [HasAmount, hma] at hp
    | some a => simp [payAmount, amountOf, hma]

theorem get_order_ok {σ : Type} (f : σ → String → σ × Except PyError Order)
    (hF : OracleOk f) (s : σ) (cache : Cache) (oid : String) :
    ∃ s1 cache1 o, get_order f s cache oid = (s1, cache1, Except.ok o) := by
  cases hc : cacheLookup cache oid with
  | some o => exact ⟨s, cache, o, by simp [get_order, hc]⟩
  | none =>
    obtain ⟨s1, o, hf⟩ := hF s oid
    exact ⟨s1, dictSet cache oid o, o, by simp [get_order, hc, hf]⟩

theorem paymentsSweep_succ {σ : Type}
    (fetchPage : Option Nat → Except PyError (ApiPage PaymentRecord))
    (fetchOrder : σ → String → σ × Except PyError Order) (fuel : Nat)
    (cursor : Option Nat) (acc : PayAcc) (s : σ) (cache : Cache) :
    paymentsSweep fetchPage fetchOrder (fuel + 1) cursor acc s cache =
      match fetchPage cursor with
      | Except.error e => (s, cache, some (Except.error e))
      | Except.ok page =>
        match processPayments fetchOrder page.records acc s cache with
        | (s1, cache1, Except.error e) => (s1, cache1, some (Except.error e))
        | (s1, cache1, Except.ok acc1) =>
          match page.cursor with
          | none => (s1, cache1, some (Except.ok acc1))
          | some c => paymentsSweep fetchPage fetchOrder fuel (some c) acc1 s1 cache1 := rfl

theorem refundsSweep_succ (fetchPage : Option Nat → Except PyError (ApiPage RefundRecord))
    (fuel : Nat) (cursor : Option Nat) (c : Nat) (v : Int) :
    refundsSweep fetchPage (fuel + 1) cursor c v =
      match fetchPage cursor with
      | Except.error e => some (Except.error e)
      | Except.ok page =>
        match processRefunds page.records c v with
        | (c1, v1) =>
          match page.cursor with
          | none => some (Except.ok (c1, v1))
          | some cur => refundsSweep fetchPage fuel (some cur) c1 v1 := rfl

theorem processRefunds_eq (recs : List RefundRecord) :
    ∀ (c : Nat) (v : Int),
      processRefunds recs c v = (c + recs.length, v + (recs.map refundAmount).sum) := by
  induction recs with
  | nil => intro c v; simp [processRefunds]
  | cons r rest ih =>
    intro c v
    rw [show processRefunds (r :: rest) c v
        = processRefunds rest (c + 1) (v + refundAmount r) from rfl, ih]
    rw [Prod.ext_iff]
    constructor
    · simp [List.length_cons]; omega
    · simp [List.map_cons, List.sum_cons]; ring

theorem processPayments_ok {σ : Type} (fetchOrder : σ → String → σ × Except PyError Order)
    (hF : OracleOk fetchOrder) :
    ∀ (recs : List PaymentRecord) (acc : PayAcc) (s : σ) (cache : Cache),
      (∀ p ∈ recs, HasAmount p) →
      ∃ s1 cache1 acc1,
        processPayments fetchOrder recs acc s cache = (s1, cache1, Except.ok acc1) ∧
        acc1.total_count = acc.total_count + recs.length ∧
        acc1.total_value = acc.total_value + (recs.map amountOf).sum := by
  intro recs
  induction recs with
  | nil =>
    intro acc s cache _
    exact ⟨s, cache, acc, by simp [processPayments], by simp, by simp⟩
  | cons p rest ih =>
    intro acc s cache hall
    have hp := hall p (List.mem_cons_self p rest)
    have hrest : ∀ q ∈ rest, HasAmount q := fun q hq => hall q (List.mem_cons_of_mem _ hq)
    have hamt := payAmount_hasAmount p hp
    cases htr : truthyStr p.order_id with
    | none =>
      obtain ⟨s1, cache1, acc1, hrec, hcnt, hval⟩ :=
        ih { acc with total_count := acc.total_count + 1,
                      total_value := acc.total_value + amountOf p } s cache hrest
      refine ⟨s1, cache1, acc1, ?_, ?_, ?_⟩
      · rw [← hrec]; simp [processPayments, hamt, htr]
      · have h1 : acc1.total_count = acc.total_count + 1 + rest.length := hcnt
        rw [h1, List.length_cons]; omega
      · have h2 : acc1.total_value = acc.total_value + amountOf p + (rest.map amountOf).sum :=
          hval
        rw [h2, List.map_cons, List.sum_cons]; ring
    | some oid =>
      obtain ⟨s1, cache1, o, hord⟩ := get_order_ok fetchOrder hF s cache oid
      obtain ⟨s2, cache2, acc1, hrec, hcnt, hval⟩ :=
        ih (processItems o.line_items
            { acc with total_count := acc.total_count + 1,
                       total_value := acc.total_value + amountOf p }) s1 cache1 hrest
      have hpt := processItems_total o.line_items
        { acc with total_count := acc.total_count + 1,
                   total_value := acc.total_value + amountOf p }
      refine ⟨s2, cache2, acc1, ?_, ?_, ?_⟩
      · rw [← hrec]; simp [processPayments, hamt, htr, hord]
      · rw [hcnt, hpt.1]
        show acc.total_count + 1 + rest.length = acc.total_count + (p :: rest).length
        rw [List.length_cons]; omega
      · rw [hval, hpt.2]
        show acc.total_value + amountOf p + (rest.map amountOf).sum
          = acc.total_value + ((p :: rest).map amountOf).sum
        rw [List.map_cons, List.sum_cons]; ring

theorem paymentsSweep_chain {σ : Type}
    (fetchPage : Option Nat → Except PyError (ApiPage PaymentRecord))
    (fetchOrder : σ → String → σ × Except PyError Order) (hF : OracleOk fetchOrder) :
    ∀ (pagesRecs : List (List PaymentRecord)) (cur : Option Nat) (acc : PayAcc)
      (s : σ) (cache : Cache),
      ServesChain fetchPage cur pagesRecs →
      (∀ p ∈ pagesRecs.flatten, HasAmount p) →
      ∃ s1 cache1 acc1,
        paymentsSweep fetchPage fetchOrder pagesRecs.length cur acc s cache =
          (s1, cache1, some (Except.ok acc1)) ∧
        acc1.total_count = acc.total_count + pagesRecs.flatten.length ∧
        acc1.total_value = acc.total_value + (pagesRecs.flatten.map amountOf).sum := by
  intro pagesRecs
  induction pagesRecs with
  | nil =>
    intro cur acc s cache hserve
    exact absurd hserve (by simp [ServesChain])
  | cons recs rest ih =>
    cases rest with
    | nil =>
      intro cur acc s cache hserve hall
      have hfetch : fetchPage cur = Except.ok ⟨recs, none⟩ := hserve
      have hallr : ∀ p ∈ recs, HasAmount p := by
        intro p hp
        exact hall p (by simpa using hp)
      obtain ⟨s1, cache1, acc1, hrec, hcnt, hval⟩ :=
        processPayments_ok fetchOrder hF recs acc s cache hallr
      refine ⟨s1, cache1, acc1, ?_, by simpa using hcnt, by simpa using hval⟩
      rw [List.length_cons, paymentsSweep_succ]
      simp [hfetch, hrec]
    | cons recs2 rest2 =>
      intro cur acc s cache hserve hall
      obtain ⟨c, hfetch, hserve2⟩ := hserve
      have hallr : ∀ p ∈ recs, HasAmount p := by
        intro p hp
        exact hall p (by rw [List.flatten_cons]; exact List.mem_append_left _ hp)
      have hall2 : ∀ p ∈ (recs2 :: rest2).flatten, HasAmount p := by
        intro p hp
        exact hall p (by rw [List.flatten_cons]; exact List.mem_append_right _ hp)
      obtain ⟨s1, cache1, accMid, hrec, hcnt1, hval1⟩ :=
        processPayments_ok fetchOrder hF recs acc s cache hallr
      obtain ⟨s2, cache2, acc1, hsw, hcnt2, hval2⟩ :=
        ih (some c) accMid s1 cache1 hserve2 hall2
      refine ⟨s2, cache2, acc1, ?_, ?_, ?_⟩
      · rw [List.length_cons, paymentsSweep_succ]
        simpa [hfetch, hrec] using hsw
      · simp only [hcnt2, hcnt1, List.flatten_cons, List.length_append]
        omega
      · simp only [hval2, hval1, List.flatten_cons, List.map_append, List.sum_append]
        ring

theorem refundsSweep_chain (fetchPage : Option Nat → Except PyError (ApiPage RefundRecord)) :
    ∀ (pagesRecs : List (List RefundRecord)) (cur : Option Nat) (c : Nat) (v : Int),
      ServesChain fetchPage cur pagesRecs →
      refundsSweep fetchPage pagesRecs.length cur c v =
        some (Except.ok
          (c + pagesRecs.flatten.length, v + (pagesRecs.flatten.map refundAmount).sum)) := by
  intro pagesRecs
  induction pagesRecs with
  | nil =>
    intro cur c v hserve
    exact absurd hserve (by simp [ServesChain])
  | cons recs rest ih =>
    cases rest with
    | nil =>
      intro cur c v hserve
      have hfetch : fetchPage cur = Except.ok ⟨recs, none⟩ := hserve
      rw [List.length_cons, refundsSweep_succ]
      simp [hfetch, processRefunds_eq]
    | cons recs2 rest2 =>
      intro cur c v hserve
      obtain ⟨cnext, hfetch, hserve2⟩ := hserve
      have hmid := ih (some cnext) (c + recs.length) (v + (recs.map refundAmount).sum) hserve2
      simp only [List.length_cons] at hmid
      rw [List.length_cons, refundsSweep_succ]
      simp [hfetch, processRefunds_eq, hmid, List.flatten_cons, List.length_append,
        List.map_append, List.sum_append, Nat.add_assoc, add_assoc]

theorem resolveAll_count (f : String → Except PyError Order)
    (hf : ∀ oid, ∃ o, f oid = Except.ok o) :
    ∀ (ids : List String) (n : Nat) (cache : Cache), ids.Nodup →
      (∀ oid ∈ ids, cacheLookup cache oid = none) →
      (resolveAll (countFetch f) n cache ids).1 = n + ids.length := by
  intro ids
  induction ids with
  | nil => intro n cache _ _; simp [resolveAll]
  | cons oid rest ih =>
    intro n cache hnd hmiss
    obtain ⟨o, ho⟩ := hf oid
    have hm : cacheLookup cache oid = none := hmiss oid (List.mem_cons_self oid rest)
    have hstep : get_order (countFetch f) n cache oid =
        (n + 1, dictSet cache oid o, Except.ok o) := by
      simp [get_order, hm, countFetch, ho]
    rw [List.nodup_cons] at hnd
    have hrest : ∀ x ∈ rest, cacheLookup (dictSet cache oid o) x = none := by
      intro x hx
      have hne : oid ≠ x := fun he => hnd.1 (he ▸ hx)
      rw [cacheLookup, dictGet?_dictSet_ne _ _ _ _ hne]
      exact hmiss x (List.mem_cons_of_mem _ hx)
    have hunf : (resolveAll (countFetch f) n cache (oid :: rest)).1
        = (resolveAll (countFetch f) (n + 1) (dictSet cache oid o) rest).1 := by
      simp [resolveAll, hstep]
    rw [hunf, ih (n + 1) (dictSet cache oid o) hnd.2 hrest, List.length_cons]
    omega

/-- C3: over any chained finite sequence of payment pages whose records all
carry non-negative integer amounts, the payments sweep's final total equals
the sum of the record amounts across all pages and its final count equals
the number of records; an empty window (one page, zero records) yields the
all-zero accumulator with no product-aggregate entries. -/
theorem C3_payment_aggregation_totals :
    (∀ (σ : Type) (fetchPage : Option Nat → Except PyError (ApiPage PaymentRecord))
        (fetchOrder : σ → String → σ × Except PyError Order) (s : σ) (cache : Cache)
        (pagesRecs : List (List PaymentRecord)),
       ServesChain fetchPage none pagesRecs →
       (∀ p ∈ pagesRecs.flatten, HasAmount p) →
       (∀ p ∈ pagesRecs.flatten, 0 ≤ amountOf p) →
       OracleOk fetchOrder →
       ∃ s1 cache1 acc1,
         paymentsSweep fetchPage fetchOrder pagesRecs.length none payAcc0 s cache =
           (s1, cache1, some (Except.ok acc1)) ∧
         acc1.total_count = pagesRecs.flatten.length ∧
         acc1.total_value = (pagesRecs.flatten.map amountOf).sum) ∧
    (∀ (σ : Type) (fetchPage : Option Nat → Except PyError (ApiPage PaymentRecord))
        (fetchOrder : σ → String → σ × Except PyError Order) (s : σ) (cache : Cache),
       fetchPage none = Except.ok ⟨[], none⟩ →
       paymentsSweep fetchPage fetchOrder 1 none payAcc0 s cache =
         (s, cache, some (Except.ok payAcc0)) ∧
       payAcc0.total_count = 0 ∧ payAcc0.total_value = 0 ∧
       payAcc0.product_counts = [] ∧ payAcc0.product_values = []) := by
  constructor
  · intro σ fetchPage fetchOrder s cache pagesRecs hserve hall _ hF
    obtain ⟨s1, cache1, acc1, h, hc, hv⟩ :=
      paymentsSweep_chain fetchPage fetchOrder hF pagesRecs none payAcc0 s cache hserve hall
    exact ⟨s1, cache1, acc1, h, by simpa [payAcc0] using hc, by simpa [payAcc0] using hv⟩
  · intro σ fetchPage fetchOrder s cache hfetch
    refine ⟨?_, rfl, rfl, rfl, rfl⟩
    rw [show (1 : Nat) = 0 + 1 from rfl, paymentsSweep_succ]
    simp [hfetch, processPayments]

/-- C4: for any finite chained sequence of pages (each page but the last
returning a continuation cursor), both the payments sweep and the refunds
sweep terminate within fuel equal to the number of pages and visit every
record exactly once: the final count equals the length of the
concatenation of all pages' records and the final total equals its sum. -/
theorem C4_pagination_terminates_visits_once :
    (∀ (σ : Type) (fetchPage : Option Nat → Except PyError (ApiPage PaymentRecord))
        (fetchOrder : σ → String → σ × Except PyError Order) (s : σ) (cache : Cache)
        (pagesRecs : List (List PaymentRecord)) (cur : Option Nat),
       ServesChain fetchPage cur pagesRecs →
       (∀ p ∈ pagesRecs.flatten, HasAmount p) →
       OracleOk fetchOrder →
       ∃ s1 cache1 acc1,
         paymentsSweep fetchPage fetchOrder pagesRecs.length cur payAcc0 s cache =
           (s1, cache1, some (Except.ok acc1)) ∧
         acc1.total_count = pagesRecs.flatten.length ∧
         acc1.total_value = (pagesRecs.flatten.map amountOf).sum) ∧
    (∀ (fetchPage : Option Nat → Except PyError (ApiPage RefundRecord))
        (pagesRecs : List (List RefundRecord)) (cur : Option Nat),
       ServesChain fetchPage cur pagesRecs →
       refundsSweep fetchPage pagesRecs.length cur 0 0 =
         some (Except.ok
           (pagesRecs.flatten.length, (pagesRecs.flatten.map refundAmount).sum))) := by
  constructor
  · intro σ fetchPage fetchOrder s cache pagesRecs cur hserve hall hF
    obtain ⟨s1, cache1, acc1, h, hc, hv⟩ :=
      paymentsSweep_chain fetchPage fetchOrder hF pagesRecs cur payAcc0 s cache hserve hall
    exact ⟨s1, cache1, acc1, h, by simpa [payAcc0] using hc, by simpa [payAcc0] using hv⟩
  · intro fetchPage pagesRecs cur hserve
    simpa using refundsSweep_chain fetchPage pagesRecs cur 0 0 hserve

/-- C5: the published average payment value is `total / count` when the
count is positive and `0` (not an error) when the count is zero, for both
the trailing 24h window and the month-to-date window. -/
theorem C5_average_always_publishable :
    (∀ (g : Gauges) (acc : PayAcc) (rc : Nat) (rv : Int), 0 < acc.total_count →
       (publish24 g acc rc rv).g_avg_value
         = (acc.total_value : ℚ) / (acc.total_count : ℚ)) ∧
    (∀ (g : Gauges) (acc : PayAcc) (rc : Nat) (rv : Int), acc.total_count = 0 →
       (publish24 g acc rc rv).g_avg_value = 0) ∧
    (∀ (g : Gauges) (mc : Nat) (mv : Int), 0 < mc →
       (publishMtd g mc mv).g_avg_value_mtd = (mv : ℚ) / (mc : ℚ)) ∧
    (∀ (g : Gauges) (mv : Int), (publishMtd g 0 mv).g_avg_value_mtd = 0) := by
  refine ⟨?_, ?_, ?_, ?_⟩
  · intro g acc rc rv h
    simp [publish24, h.ne']
  · intro g acc rc rv h
    simp [publish24, h]
  · intro g mc mv h
    simp [publishMtd, h.ne']
  · intro g mv
    simp [publishMtd]

/-- Witness for C5 at concrete counts: payments 2 totalling 2000 average
to 1000; zero payments average to 0; 5 MTD payments totalling 500 average
to 100; zero MTD payments average to 0. -/
theorem C5_average_always_publishable_witness :
    (publish24 gauges0 ⟨2, 2000, [], []⟩ 0 0).g_avg_value = 1000 ∧
    (publish24 gauges0 ⟨0, 0, [], []⟩ 0 0).g_avg_value = 0 ∧
    (publishMtd gauges0 5 500).g_avg_value_mtd = 100 ∧
    (publishMtd gauges0 0 123).g_avg_value_mtd = 0 := by
  refine ⟨?_, ?_, ?_, ?_⟩
  · have h := C5_average_always_publishable.1 gauges0 ⟨2, 2000, [], []⟩ 0 0 (by decide)
    rw [h]; norm_num
  · exact C5_average_always_publishable.2.1 gauges0 ⟨0, 0, [], []⟩ 0 0 rfl
  · have h := C5_average_always_publishable.2.2.1 gauges0 5 500 (by decide)
    rw [h]; norm_num
  · exact C5_average_always_publishable.2.2.2 gauges0 123

/-- C7: the month-to-date window runs from the first instant of the
collection time's calendar month (day 1, 00:00:00.000000 of the same year
and month) to the collection time itself; in particular at day 1, 00:30
the window start is 30 minutes before `now`, in the same month, not in
the previous one. -/
theorem C7_mtd_window_month_start :
    (∀ now : DateTime, mtdWindow now = (⟨now.year, now.month, 1, 0, 0, 0, 0⟩, now)) ∧
    ((mtdStart ⟨2025, 11, 1, 0, 30, 0, 0⟩).year = 2025 ∧
     (mtdStart ⟨2025, 11, 1, 0, 30, 0, 0⟩).month = 11 ∧
     (mtdStart ⟨2025, 11, 1, 0, 30, 0, 0⟩).day = 1 ∧
     minutesOfDay ⟨2025, 11, 1, 0, 30, 0, 0⟩
       - minutesOfDay (mtdStart ⟨2025, 11, 1, 0, 30, 0, 0⟩) = 30) :=
  ⟨fun _ => rfl, rfl, rfl, rfl, rfl⟩

/-- A payment record with a plain amount and no order reference, for
concrete instantiations. -/
def pRec (a : Int) : PaymentRecord := ⟨some ⟨some a⟩, none⟩

/-- A refund record with a plain amount, for concrete instantiations. -/
def rRec (a : Int) : RefundRecord := ⟨some ⟨some a⟩⟩

/-- A two-page chained payments endpoint: amounts 500 then 1500. -/
def fetchPayW : Option Nat → Except PyError (ApiPage PaymentRecord)
  | none => Except.ok ⟨[pRec 500], some 1⟩
  | some 1 => Except.ok ⟨[pRec 1500], none⟩
  | some _ => Except.error PyError.transport

/-- An orders endpoint that always answers with an empty order. -/
def fetchOrdW : Unit → String → Unit × Except PyError Order :=
  fun s _ => (s, Except.ok ⟨[]⟩)

/-- Witness for C3: the two-page chain with amounts 500 and 1500 sweeps to
count 2 and total 2000, and a single empty page sweeps to the all-zero
accumulator. -/
theorem C3_payment_aggregation_totals_witness :
    (∃ s1 cache1 acc1,
       paymentsSweep fetchPayW fetchOrdW 2 none payAcc0 () [] =
         (s1, cache1, some (Except.ok acc1)) ∧
       acc1.total_count = 2 ∧ acc1.total_value = 2000) ∧
    paymentsSweep (fun _ => Except.ok ⟨[], none⟩) fetchOrdW 1 none payAcc0 () [] =
      ((), [], some (Except.ok payAcc0)) := by
  constructor
  · obtain ⟨s1, cache1, acc1, h, hc, hv⟩ :=
      C3_payment_aggregation_totals.1 Unit fetchPayW fetchOrdW () []
        [[pRec 500], [pRec 1500]] ⟨1, rfl, rfl⟩ (by decide) (by decide)
        (fun s _ => ⟨s, ⟨[]⟩, rfl⟩)
    exact ⟨s1, cache1, acc1, h, by simpa using hc, by simpa using hv⟩
  · exact (C3_payment_aggregation_totals.2 Unit _ fetchOrdW () [] rfl).1

/-- A two-page chained refunds endpoint: amounts 200 then 300. -/
def fetchRefW : Option Nat → Except PyError (ApiPage RefundRecord)
  | none => Except.ok ⟨[rRec 200], some 1⟩
  | some 1 => Except.ok ⟨[rRec 300], none⟩
  | some _ => Except.error PyError.transport

/-- A one-page payments endpoint with a single payment of 100. -/
def fetchPayW1 : Option Nat → Except PyError (ApiPage PaymentRecord) :=
  fun _ => Except.ok ⟨[pRec 100], none⟩

/-- Witness for C4: a one-page payments chain (amount 100) terminates with
count 1 / total 100 within fuel 1, and the two-page refunds chain
(amounts 200 and 300) terminates with count 2 / total 500 within fuel 2. -/
theorem C4_pagination_terminates_visits_once_witness :
    (∃ s1 cache1 acc1,
       paymentsSweep fetchPayW1 fetchOrdW 1 none payAcc0 () [] =
         (s1, cache1, some (Except.ok acc1)) ∧
       acc1.total_count = 1 ∧ acc1.total_value = 100) ∧
    refundsSweep fetchRefW 2 none 0 0 = some (Except.ok (2, 500)) := by
  constructor
  · obtain ⟨s1, cache1, acc1, h, hc, hv⟩ :=
      C4_pagination_terminates_visits_once.1 Unit fetchPayW1 fetchOrdW () []
        [[pRec 100]] none rfl (by decide) (fun s _ => ⟨s, ⟨[]⟩, rfl⟩)
    exact ⟨s1, cache1, acc1, h, by simpa using hc, by simpa using hv⟩
  · have h := C4_pagination_terminates_visits_once.2 fetchRefW
      [[rRec 200], [rRec 300]] none ⟨1, rfl, rfl⟩
    simpa using h

theorem publishProducts_frame (name : String) :
    ∀ (counts vals : List (String × Int)) (cg vg : List (String × ℚ)),
      name ∉ counts.map Prod.fst →
      dictGet? (publishProducts cg vg counts vals).1 name = dictGet? cg name ∧
      dictGet? (publishProducts cg vg counts vals).2 name = dictGet? vg name := by
  intro counts
  induction counts with
  | nil => intro vals cg vg _; simp [publishProducts]
  | cons kv rest ih =>
    obtain ⟨prod, cnt⟩ := kv
    intro vals cg vg hmem
    simp only [List.map_cons, List.mem_cons, not_or] at hmem
    obtain ⟨hne, hrest⟩ := hmem
    have hstep := ih vals (dictSet cg prod (cnt : ℚ))
      (dictSet vg prod (((dictGet? vals prod).getD 0 : Int) : ℚ)) hrest
    rw [show publishProducts cg vg ((prod, cnt) :: rest) vals
        = publishProducts (dictSet cg prod (cnt : ℚ))
            (dictSet vg prod (((dictGet? vals prod).getD 0 : Int) : ℚ)) rest vals from rfl]
    rw [hstep.1, hstep.2]
    constructor
    · exact dictGet?_dictSet_ne cg prod name (cnt : ℚ) (fun he => hne he.symm)
    · exact dictGet?_dictSet_ne vg prod name _ (fun he => hne he.symm)

/-- C8: per-product gauge children are never removed or reset by a cycle's
publication: any product name absent from the current cycle's
`product_counts` keeps its previously published count and value gauge
values, so a product sold only in an earlier window keeps reporting its
old values. -/
theorem C8_product_gauges_persist (g : Gauges) (acc : PayAcc) (rc : Nat) (rv : Int)
    (name : String) (h : name ∉ acc.product_counts.map Prod.fst) :
    dictGet? (publish24 g acc rc rv).product_count_24h name
        = dictGet? g.product_count_24h name ∧
    dictGet? (publish24 g acc rc rv).product_value_24h name
        = dictGet? g.product_value_24h name := by
  have h2 := publishProducts_frame name acc.product_counts acc.product_values
    g.product_count_24h g.product_value_24h h
  simpa [publish24] using h2

/-- A gauge state carrying an old product entry for "Tea", for the C8
witness. -/
def gTea : Gauges :=
  { gauges0 with product_count_24h := [("Tea", 5)], product_value_24h := [("Tea", 6)] }

/-- Witness for C8: a cycle selling only "Coffee" leaves the previously
published "Tea" gauges untouched. -/
theorem C8_product_gauges_persist_witness :
    ("Tea" ∉ ([("Coffee", (3 : Int))].map Prod.fst)) ∧
    (dictGet? (publish24 gTea ⟨1, 300, [("Coffee", 3)], [("Coffee", 900)]⟩ 0 0).product_count_24h
        "Tea" = dictGet? gTea.product_count_24h "Tea" ∧
     dictGet? (publish24 gTea ⟨1, 300, [("Coffee", 3)], [("Coffee", 900)]⟩ 0 0).product_value_24h
        "Tea" = dictGet? gTea.product_value_24h "Tea") :=
  ⟨by decide,
   C8_product_gauges_persist gTea ⟨1, 300, [("Coffee", 3)], [("Coffee", 900)]⟩ 0 0 "Tea"
     (by decide)⟩

/-- C9: a line item with a missing name aggregates under the literal key
"<unknown>", a missing quantity defaults to 1, a missing unit price
defaults to 0, and the item contributes `unit_price * quantity` to the
product value; processing a line item is total, so partially populated
items never fail. -/
theorem C9_line_item_defaults :
    (∀ (acc : PayAcc) (it : LineItem),
       processItems [it] acc =
         { acc with
           product_counts := dictSet acc.product_counts (itemName it)
             ((dictGet? acc.product_counts (itemName it)).getD 0 + itemQty it)
           product_values := dictSet acc.product_values (itemName it)
             ((dictGet? acc.product_values (itemName it)).getD 0
               + itemUnitPrice it * itemQty it) }) ∧
    (∀ (q : Option Int) (b : Option AmountMoney), itemName ⟨none, q, b⟩ = "<unknown>") ∧
    (∀ (n : Option String) (b : Option AmountMoney), itemQty ⟨n, none, b⟩ = 1) ∧
    (∀ (n : Option String) (q : Option Int), itemUnitPrice ⟨n, q, none⟩ = 0) :=
  ⟨fun _ _ => rfl, fun _ _ => rfl, fun _ _ => rfl, fun _ _ => rfl⟩

/-- C10: a refund record without `amount_money` still increments the
refund count while contributing 0 to the refund total, whereas a payment
record without `amount_money` raises `KeyError("amount_money")` and
aborts that cycle's aggregation (`collect_metrics` returns the error with
every gauge unchanged). -/
theorem C10_missing_amount_asymmetry :
    (∀ (r : RefundRecord) (rest : List RefundRecord) (c : Nat) (v : Int),
       r.amount_money = none →
       processRefunds (r :: rest) c v = processRefunds rest (c + 1) v) ∧
    (∀ (σ : Type) (fetchOrder : σ → String → σ × Except PyError Order)
        (p : PaymentRecord) (rest : List PaymentRecord) (acc : PayAcc)
        (s : σ) (cache : Cache),
       p.amount_money = none →
       processPayments fetchOrder (p :: rest) acc s cache =
         (s, cache, Except.error (PyError.keyError "amount_money"))) ∧
    (∀ (σ : Type) (R : Remote σ) (fuel : Nat) (g : Gauges) (s : σ) (cache : Cache)
        (p : PaymentRecord) (rest : List PaymentRecord) (pcur : Option Nat),
       R.payments24 none = Except.ok ⟨p :: rest, pcur⟩ →
       p.amount_money = none →
       collect_metrics R (fuel + 1) g s cache =
         some ⟨g, cache, s, some (PyError.keyError "amount_money")⟩) := by
  refine ⟨?_, ?_, ?_⟩
  · intro r rest c v h
    simp [processRefunds, refundAmount, h]
  · intro σ fetchOrder p rest acc s cache h
    simp [processPayments, payAmount, h]
  · intro σ R fuel g s cache p rest pcur hpage h
    simp [collect_metrics, paymentsSweep, hpage, processPayments, payAmount, h]

/-- A remote whose single payments page holds one payment record lacking
`amount_money`, for the C10 witness. -/
def R10 : Remote Unit :=
  { payments24 := fun _ => Except.ok ⟨[⟨none, none⟩], none⟩
  , refunds24 := fun _ => Except.ok ⟨[], none⟩
  , paymentsMtd := fun _ => Except.ok ⟨[], none⟩
  , orderFetch := fun s _ => (s, Except.ok ⟨[]⟩) }

/-- Witness for C10 at concrete records: an amountless refund counts with
0 contribution; an amountless payment makes the page processing, and the
whole cycle, abort with `KeyError("amount_money")`. -/
theorem C10_missing_amount_asymmetry_witness :
    processRefunds [⟨none⟩] 0 0 = processRefunds [] 1 0 ∧
    processPayments fetchOrdW [⟨none, none⟩] payAcc0 () [] =
      ((), [], Except.error (PyError.keyError "amount_money")) ∧
    collect_metrics R10 1 gauges0 () [] =
      some ⟨gauges0, [], (), some (PyError.keyError "amount_money")⟩ :=
  ⟨C10_missing_amount_asymmetry.1 ⟨none⟩ [] 0 0 rfl,
   C10_missing_amount_asymmetry.2.1 Unit fetchOrdW ⟨none, none⟩ [] payAcc0 () [] rfl,
   C10_missing_amount_asymmetry.2.2 Unit R10 0 gauges0 () [] ⟨none, none⟩ [] none rfl rfl⟩

/-- C6: the order cache memoizes lookups: a hit returns the stored order
with no fetch (the fetch state does not advance); the first resolve of an
uncached id issues exactly one fetch and stores the result; a failed
fetch leaves the cache unchanged, so the next resolve retries; resolving
N distinct uncached ids issues exactly N fetches, and resolving the same
id twice issues exactly one. -/
theorem C6_order_cache_memoization :
    (∀ (σ : Type) (f : σ → String → σ × Except PyError Order) (s : σ)
        (cache : Cache) (oid : String) (o : Order),
       cacheLookup cache oid = some o →
       get_order f s cache oid = (s, cache, Except.ok o)) ∧
    (∀ (σ : Type) (f : σ → String → σ × Except PyError Order) (s s1 : σ)
        (cache : Cache) (oid : String) (o : Order),
       cacheLookup cache oid = none → f s oid = (s1, Except.ok o) →
       get_order f s cache oid = (s1, dictSet cache oid o, Except.ok o)) ∧
    (∀ (σ : Type) (f : σ → String → σ × Except PyError Order) (s s1 : σ)
        (cache : Cache) (oid : String) (e : PyError),
       cacheLookup cache oid = none → f s oid = (s1, Except.error e) →
       get_order f s cache oid = (s1, cache, Except.error e)) ∧
    (∀ (f : String → Except PyError Order) (ids : List String),
       (∀ oid, ∃ o, f oid = Except.ok o) → ids.Nodup →
       (resolveAll (countFetch f) 0 [] ids).1 = ids.length) ∧
    (∀ (f : String → Except PyError Order) (oid : String) (o : Order),
       f oid = Except.ok o →
       (resolveAll (countFetch f) 0 [] [oid, oid]).1 = 1) := by
  refine ⟨?_, ?_, ?_, ?_, ?_⟩
  · intro σ f s cache oid o h
    simp [get_order, h]
  · intro σ f s s1 cache oid o h hf
    simp [get_order, h, hf]
  · intro σ f s s1 cache oid e h hf
    simp [get_order, h, hf]
  · intro f ids hf hnd
    have h := resolveAll_count f hf ids 0 [] hnd
      (fun x hx => by simp [cacheLookup, dictGet?])
    simpa using h
  · intro f oid o hf
    have h1 : get_order (countFetch f) 0 [] oid = (1, [(oid, o)], Except.ok o) := by
      simp [get_order, cacheLookup, dictGet?, countFetch, hf, dictSet]
    have h2 : get_order (countFetch f) 1 [(oid, o)] oid = (1, [(oid, o)], Except.ok o) := by
      simp [get_order, cacheLookup, dictGet?]
    simp [resolveAll, h1, h2]

/-- A fixed order returned by the witness oracles. -/
def ordA : Order := ⟨[]⟩

/-- An orders endpoint that always succeeds with `ordA`. -/
def fC6 : String → Except PyError Order := fun _ => Except.ok ordA

/-- Witness for C6 at concrete ids: a hit issues no fetch; a miss issues
one and caches; a failing endpoint leaves the cache empty; three distinct
ids cost three fetches; the same id twice costs one. -/
theorem C6_order_cache_memoization_witness :
    get_order (countFetch fC6) 5 [("o1", ordA)] "o1" = (5, [("o1", ordA)], Except.ok ordA) ∧
    get_order (countFetch fC6) 0 [] "o2" = (1, [("o2", ordA)], Except.ok ordA) ∧
    get_order (fun (n : Nat) (_ : String) =>
        (n + 1, (Except.error PyError.transport : Except PyError Order))) 0 [] "o3" =
      (1, [], Except.error PyError.transport) ∧
    (resolveAll (countFetch fC6) 0 [] ["a", "b", "c"]).1 = 3 ∧
    (resolveAll (countFetch fC6) 0 [] ["a", "a"]).1 = 1 :=
  ⟨C6_order_cache_memoization.1 Nat (countFetch fC6) 5 [("o1", ordA)] "o1" ordA rfl,
   C6_order_cache_memoization.2.1 Nat (countFetch fC6) 0 1 [] "o2" ordA rfl rfl,
   C6_order_cache_memoization.2.2.1 Nat _ 0 1 [] "o3" PyError.transport rfl rfl,
   C6_order_cache_memoization.2.2.2.1 fC6 ["a", "b", "c"] (fun _ => ⟨ordA, rfl⟩) (by decide),
   C6_order_cache_memoization.2.2.2.2 fC6 "a" ordA rfl⟩

/-- C2: a payment whose order lookup fails aborts the entire aggregation
call: `get_order` surfaces the error without caching (the Order Cache
does not swallow it), a failing page fetch likewise propagates (the Page
Fetcher does not swallow it), and in both cases `collect_metrics` returns
the error with every gauge unchanged. -/
theorem C2_order_lookup_failure_aborts :
    (∀ (σ : Type) (f : σ → String → σ × Except PyError Order) (s s1 : σ)
        (cache : Cache) (oid : String) (e : PyError),
       cacheLookup cache oid = none → f s oid = (s1, Except.error e) →
       get_order f s cache oid = (s1, cache, Except.error e)) ∧
    (∀ (σ : Type) (R : Remote σ) (fuel : Nat) (g : Gauges) (s s1 : σ) (cache : Cache)
        (p : PaymentRecord) (rest : List PaymentRecord) (pcur : Option Nat)
        (a : Int) (oid : String) (e : PyError),
       R.payments24 none = Except.ok ⟨p :: rest, pcur⟩ →
       payAmount p = Except.ok a →
       truthyStr p.order_id = some oid →
       cacheLookup cache oid = none →
       R.orderFetch s oid = (s1, Except.error e) →
       collect_metrics R (fuel + 1) g s cache = some ⟨g, cache, s1, some e⟩) ∧
    (∀ (σ : Type) (R : Remote σ) (fuel : Nat) (g : Gauges) (s : σ) (cache : Cache)
        (e : PyError),
       R.payments24 none = Except.error e →
       collect_metrics R (fuel + 1) g s cache = some ⟨g, cache, s, some e⟩) := by
  refine ⟨?_, ?_, ?_⟩
  · intro σ f s s1 cache oid e h hf
    simp [get_order, h, hf]
  · intro σ R fuel g s s1 cache p rest pcur a oid e hpage hamt htru hc hf
    simp [collect_metrics, paymentsSweep, hpage, processPayments, hamt, htru,
      get_order, hc, hf]
  · intro σ R fuel g s cache e hpage
    simp [collect_metrics, paymentsSweep, hpage]

/-- A remote whose single payment references order "ord1" and whose
orders endpoint always fails, for the C2 witness. -/
def R2 : Remote Nat :=
  { payments24 := fun _ => Except.ok ⟨[⟨some ⟨some 500⟩, some "ord1"⟩], none⟩
  , refunds24 := fun _ => Except.ok ⟨[], none⟩
  , paymentsMtd := fun _ => Except.ok ⟨[], none⟩
  , orderFetch := fun n _ => (n + 1, Except.error PyError.transport) }

/-- A remote whose payments endpoint itself fails, for the C2 witness. -/
def R2b : Remote Nat :=
  { payments24 := fun _ => Except.error PyError.transport
  , refunds24 := fun _ => Except.ok ⟨[], none⟩
  , paymentsMtd := fun _ => Except.ok ⟨[], none⟩
  , orderFetch := fun n _ => (n, Except.ok ordA) }

/-- Witness for C2: with one payment referencing "ord1" and a failing
orders endpoint the cycle aborts with the transport error and unchanged
gauges; a failing payments page likewise aborts the cycle. -/
theorem C2_order_lookup_failure_aborts_witness :
    get_order R2.orderFetch 0 [] "ord1" = (1, [], Except.error PyError.transport) ∧
    collect_metrics R2 1 gauges0 0 [] = some ⟨gauges0, [], 1, some PyError.transport⟩ ∧
    collect_metrics R2b 1 gauges0 0 [] = some ⟨gauges0, [], 0, some PyError.transport⟩ :=
  ⟨C2_order_lookup_failure_aborts.1 Nat R2.orderFetch 0 1 [] "ord1" PyError.transport rfl rfl,
   C2_order_lookup_failure_aborts.2.1 Nat R2 0 gauges0 0 1 [] ⟨some ⟨some 500⟩, some "ord1"⟩
     [] none 500 "ord1" PyError.transport rfl rfl rfl rfl rfl,
   C2_order_lookup_failure_aborts.2.2 Nat R2b 0 gauges0 0 [] PyError.transport rfl⟩

/-- The prior cycle's published gauge values (all 7), for the C1
counterexample: values a fresh cycle could never republish. -/
def gPrior : Gauges := ⟨7, 7, 7, 7, 7, [("Coffee", 7)], [("Coffee", 7)], 7, 7, 7⟩

/-- The C1 scenario remote: one payments page with amounts 500 and 1500,
a first refunds page (amount 200) chaining to a second page that fails
with a transport error, and an MTD payments page with amount 100. -/
def cexRemote : Remote Unit :=
  { payments24 := fun _ =>
      Except.ok ⟨[⟨some ⟨some 500⟩, none⟩, ⟨some ⟨some 1500⟩, none⟩], none⟩
  , refunds24 := fun cur =>
      match cur with
      | none => Except.ok ⟨[⟨some ⟨some 200⟩⟩], some 1⟩
      | some _ => Except.error PyError.transport
  , paymentsMtd := fun _ => Except.ok ⟨[⟨some ⟨some 100⟩, none⟩], none⟩
  , orderFetch := fun s _ => (s, Except.ok ⟨[]⟩) }

/-- Counterexample to C1 as stated: with two payments (500, 1500) on one
page and a transport failure on the second refunds page, the cycle aborts
before the 24h publication, so the payment metrics computed in that same
cycle (count 2) are NOT published — every gauge keeps the prior value 7 —
and the MTD window (whose data would publish count 1) is not attempted
either. -/
theorem C1_counterexample :
    collect_metrics cexRemote 3 gPrior () [] =
      some ⟨gPrior, [], (), some PyError.transport⟩ ∧
    gPrior.g_pay_count ≠ (2 : ℚ) ∧ gPrior.g_pay_count_mtd ≠ (1 : ℚ) :=
  ⟨rfl, by decide, by decide⟩

/-- C1 (amended): a transport failure during the 24h refunds sweep aborts
`collect_metrics` before anything is published — the payment metrics
computed that cycle are discarded, all gauges (payments, refunds, MTD)
keep their previously published values, and the MTD window is not
attempted.  Only a failure in the MTD sweep leaves that cycle's
already-published 24h metrics in place while the MTD gauges keep their
prior values.  In every case the scheduler catches the error and the next
tick proceeds with the persistent state. -/
theorem C1_amended_failure_isolation :
    (∀ (σ : Type) (R : Remote σ) (fuel : Nat) (g : Gauges) (s s1 : σ)
        (cache cache1 : Cache) (acc : PayAcc) (e : PyError),
       paymentsSweep R.payments24 R.orderFetch fuel none payAcc0 s cache =
         (s1, cache1, some (Except.ok acc)) →
       refundsSweep R.refunds24 fuel none 0 0 = some (Except.error e) →
       collect_metrics R fuel g s cache = some ⟨g, cache1, s1, some e⟩) ∧
    (∀ (σ : Type) (R : Remote σ) (fuel : Nat) (g : Gauges) (s s1 : σ)
        (cache cache1 : Cache) (acc : PayAcc) (rc : Nat) (rv : Int) (e : PyError),
       paymentsSweep R.payments24 R.orderFetch fuel none payAcc0 s cache =
         (s1, cache1, some (Except.ok acc)) →
       refundsSweep R.refunds24 fuel none 0 0 = some (Except.ok (rc, rv)) →
       mtdSweep R.paymentsMtd fuel none 0 0 = some (Except.error e) →
       collect_metrics R fuel g s cache =
           some ⟨publish24 g acc rc rv, cache1, s1, some e⟩ ∧
       (publish24 g acc rc rv).g_pay_count_mtd = g.g_pay_count_mtd ∧
       (publish24 g acc rc rv).g_pay_value_mtd = g.g_pay_value_mtd ∧
       (publish24 g acc rc rv).g_avg_value_mtd = g.g_avg_value_mtd) ∧
    (∀ (σ : Type) (R : Remote σ) (fuel : Nat) (g : Gauges) (s : σ) (cache : Cache)
        (out : CycleOut σ),
       collect_metrics R fuel g s cache = some out →
       runTick R fuel g s cache = some (out.gauges, out.fetchSt, out.cache)) := by
  refine ⟨?_, ?_, ?_⟩
  · intro σ R fuel g s s1 cache cache1 acc e h1 h2
    simp [collect_metrics, h1, h2]
  · intro σ R fuel g s s1 cache cache1 acc rc rv e h1 h2 h3
    exact ⟨by simp [collect_metrics, h1, h2, h3], rfl, rfl, rfl⟩
  · intro σ R fuel g s cache out h
    simp [runTick, h]

/-- The C1-amended MTD-failure remote: one payment of 500, one refund of
200, and a failing MTD payments endpoint. -/
def cexRemoteMtd : Remote Unit :=
  { payments24 := fun _ => Except.ok ⟨[⟨some ⟨some 500⟩, none⟩], none⟩
  , refunds24 := fun _ => Except.ok ⟨[⟨some ⟨some 200⟩⟩], none⟩
  , paymentsMtd := fun _ => Except.error PyError.transport
  , orderFetch := fun s _ => (s, Except.ok ⟨[]⟩) }

/-- Witness for the amended C1: the refunds-failure remote aborts with
all gauges at their prior values; the MTD-failure remote publishes the
24h metrics while the MTD gauges keep their prior values; the scheduler
tick swallows the error and carries the state forward. -/
theorem C1_amended_failure_isolation_witness :
    collect_metrics cexRemote 4 gPrior () [] =
      some ⟨gPrior, [], (), some PyError.transport⟩ ∧
    (collect_metrics cexRemoteMtd 1 gPrior () [] =
        some ⟨publish24 gPrior ⟨1, 500, [], []⟩ 1 200, [], (), some PyError.transport⟩ ∧
      (publish24 gPrior ⟨1, 500, [], []⟩ 1 200).g_pay_count_mtd = gPrior.g_pay_count_mtd ∧
      (publish24 gPrior ⟨1, 500, [], []⟩ 1 200).g_pay_value_mtd = gPrior.g_pay_value_mtd ∧
      (publish24 gPrior ⟨1, 500, [], []⟩ 1 200).g_avg_value_mtd = gPrior.g_avg_value_mtd) ∧
    runTick cexRemote 4 gPrior () [] = some (gPrior, (), []) :=
  ⟨C1_amended_failure_isolation.1 Unit cexRemote 4 gPrior () () [] []
     ⟨2, 2000, [], []⟩ PyError.transport rfl rfl,
   C1_amended_failure_isolation.2.1 Unit cexRemoteMtd 1 gPrior () () [] []
     ⟨1, 500, [], []⟩ 1 200 PyError.transport rfl rfl rfl,
   C1_amended_failure_isolation.2.2 Unit cexRemote 4 gPrior () []
     ⟨gPrior, [], (), some PyError.transport⟩ rfl⟩

end Exporter
